import Mathlib

/-!
Verification of the Spriggan runtime (`src/spriggan.js`, the consolidated
module version) against its natural-language specification.

The JavaScript runtime is shallowly embedded: JS values are an inductive
type `JSValue`, the stateful per-instance closure variables become an
explicit `Instance` record, and every `console.*` call and every
invocation of the effect runner or the renderer is recorded in an explicit
event trace.  DOM mutation, `fetch`, `localStorage`, timers and
`performance.now()` timestamps are outside the embedding; the events that
mention them record exactly which code path was taken.
-/

namespace Spriggan

/--
A JavaScript value, as far as the runtime inspects values: the runtime
only ever branches on truthiness, `Array.isArray`, `typeof`, `== null`,
`=== false/true`, field access, string coercion and `JSON.stringify`.
`bigint` is included because `JSON.stringify` throws a `TypeError` on it;
`func ret` models a zero-argument function that returns `ret` when called
(the only way the runtime calls a value held in a `JSValue` position is
`init()` with no arguments).
-/
inductive JSValue where
  | undef
  | null
  | bool (b : Bool)
  | num (n : Int)
  | str (s : String)
  | arr (elems : List JSValue)
  | obj (fields : List (String × JSValue))
  | bigint (n : Int)
  | func (ret : JSValue)

/-- JS truthiness (`if (v)`).  `NaN` is not modelled; numbers are integral. -/
def jsTruthy : JSValue → Bool
  | .undef => false
  | .null => false
  | .bool b => b
  | .num n => n != 0
  | .str s => !s.isEmpty
  | .arr _ => true
  | .obj _ => true
  | .bigint n => n != 0
  | .func _ => true

/-- Property access `v[k]` for a string key: defined fields of objects,
`undefined` everywhere else (primitives and arrays have none of the keys
the runtime reads). -/
def jsGetField : JSValue → String → JSValue
  | .obj fields, k =>
    match fields.find? (fun p => p.1 == k) with
    | some p => p.2
    | none => .undef
  | _, _ => .undef

mutual

/-- JS string coercion `String(v)` / `"" + v`.  Arrays coerce via
`join(",")`; plain objects to `"[object Object]"`.  (Symbols, whose
coercion throws, are not part of the model.) -/
def jsToString : JSValue → String
  | .undef => "undefined"
  | .null => "null"
  | .bool b => if b then "true" else "false"
  | .num n => toString n
  | .str s => s
  | .arr elems => joinList "," elems
  | .obj _ => "[object Object]"
  | .bigint n => toString n
  | .func _ => "function"

/-- `Array.prototype.join(sep)`: `null`/`undefined` elements contribute the
empty string, every other element its string coercion (the element
conversion is written inline to keep the recursion structural). -/
def joinList (sep : String) : List JSValue → String
  | [] => ""
  | [v] =>
    (match v with
     | .undef => ""
     | .null => ""
     | v => jsToString v)
  | v :: rest =>
    (match v with
     | .undef => ""
     | .null => ""
     | v => jsToString v) ++ sep ++ joinList sep rest

end

/-- One element of a `join`: empty for `null`/`undefined`, else `String(e)`. -/
def joinElem : JSValue → String
  | .undef => ""
  | .null => ""
  | v => jsToString v

theorem joinList_singleton (sep : String) (v : JSValue) :
    joinList sep [v] = joinElem v := by
  cases v <;> rfl

theorem joinList_cons_cons (sep : String) (v w : JSValue) (rest : List JSValue) :
    joinList sep (v :: w :: rest) = joinElem v ++ sep ++ joinList sep (w :: rest) := by
  cases v <;> rfl

/-- A single (double) quote character, used by `JSON.stringify`. -/
def dquote : String := String.singleton (Char.ofNat 34)

/-- A single quote character, used by the `html` Message branch. -/
def squote : String := String.singleton (Char.ofNat 39)

/-- Escaping of one character inside a JSON string literal (quote,
backslash and newline; other control characters do not occur in the
development). -/
def jsonEscapeChar (c : Char) : String :=
  if c = Char.ofNat 34 then "\\" ++ dquote
  else if c = '\\' then "\\\\"
  else if c = '\n' then "\\n"
  else String.singleton c

/-- A JSON string literal for `s`. -/
def jsonQuote (s : String) : String :=
  dquote ++ String.join (s.data.map jsonEscapeChar) ++ dquote

mutual

/-- `JSON.stringify(v)`.  `.error ()` is the `TypeError` raised on a
`BigInt`; `.ok none` is the `undefined` result for `undefined` and for
functions.  (Circular structures, the other `TypeError` source in JS, are
not representable in an inductive value.) -/
def jsonStringify : JSValue → Except Unit (Option String)
  | .undef => .ok none
  | .func _ => .ok none
  | .null => .ok (some "null")
  | .bool b => .ok (some (if b then "true" else "false"))
  | .num n => .ok (some (toString n))
  | .bigint _ => .error ()
  | .str s => .ok (some (jsonQuote s))
  | .arr elems =>
    match jsonArrItems elems with
    | .error e => .error e
    | .ok items => .ok (some ("[" ++ String.intercalate "," items ++ "]"))
  | .obj fields =>
    match jsonObjItems fields with
    | .error e => .error e
    | .ok items => .ok (some ("\x7b" ++ String.intercalate "," items ++ "\x7d"))

/-- Array items of `JSON.stringify`: `undefined`/function elements become
`"null"`. -/
def jsonArrItems : List JSValue → Except Unit (List String)
  | [] => .ok []
  | v :: rest =>
    match jsonStringify v with
    | .error e => .error e
    | .ok item =>
      match jsonArrItems rest with
      | .error e => .error e
      | .ok items => .ok ((item.getD "null") :: items)

/-- Object entries of `JSON.stringify`: fields whose value serializes to
`undefined` are omitted. -/
def jsonObjItems : List (String × JSValue) → Except Unit (List String)
  | [] => .ok []
  | (k, v) :: rest =>
    match jsonStringify v with
    | .error e => .error e
    | .ok item =>
      match jsonObjItems rest with
      | .error e => .error e
      | .ok items =>
        match item with
        | none => .ok items
        | some s => .ok ((jsonQuote k ++ ":" ++ s) :: items)

end

/-- `Array.isArray(v)`. -/
def isArray : JSValue → Bool
  | .arr _ => true
  | _ => false

/-- The JS test `v === undefined`. -/
def isUndef : JSValue → Bool
  | .undef => true
  | _ => false

/-- The JS test `v == null` (loose equality: `null` or `undefined`). -/
def isNullish : JSValue → Bool
  | .null => true
  | .undef => true
  | _ => false

/-- The JS test `v === b` for a boolean literal `b`. -/
def isBoolLit (b : Bool) : JSValue → Bool
  | .bool c => b == c
  | _ => false

/-- The duck-typing test of `html`'s fourth branch:
`typeof value === "object" && "type" in value && typeof value.type === "string"`
(arrays and `null` never reach this branch in `html`). -/
def isMessageShaped : JSValue → Bool
  | .obj fields =>
    match fields.find? (fun p => p.1 == "type") with
    | some (_, .str _) => true
    | _ => false
  | _ => false

/-- The per-value branch of the `html` loop body (the `value` here is the
loop's `value` after `values[i] ?? ""`).  `.error ()` is a propagated
`JSON.stringify` `TypeError`. -/
def htmlValue (value : JSValue) : Except Unit String :=
  if let .arr elems := value then .ok (joinList "" elems)
  else if isNullish value || isBoolLit false value then .ok ""
  else if isBoolLit true value then .ok ""
  else if isMessageShaped value then
    match jsonStringify value with
    | .error e => .error e
    | .ok item => .ok (squote ++ item.getD "undefined" ++ squote)
  else .ok (jsToString value)

/-- The `for` loop of `html`, carrying the accumulated `result`.  The
`values[i] ?? ""` coalescing is applied before `htmlValue`; a missing
`strings[i + 1]` concatenates as the string `"undefined"`, exactly as
`result += undefined` would (a tagged-template call always supplies
`strings.length = values.length + 1`, so that case only arises for direct
calls). -/
def htmlLoop (strings : List String) : Nat → List JSValue → String → Except Unit String
  | _, [], result => .ok result
  | i, v :: rest, result =>
    let value := if isNullish v then JSValue.str "" else v
    match htmlValue value with
    | .error e => .error e
    | .ok piece =>
      let nextLit :=
        match strings[i + 1]? with
        | some s => s
        | none => "undefined"
      htmlLoop strings (i + 1) rest (result ++ piece ++ nextLit)

/-- The tagged template literal `html(strings, ...values)`.  Returns the
built HTML string, or `.error ()` when a `TypeError` escapes (which in the
source happens iff `JSON.stringify` throws inside the Message branch). -/
def html (strings : List String) (values : List JSValue) : Except Unit String :=
  htmlLoop strings 0 values (strings.headD "")

/-!
## The instance closure

One `createSpriggan()` call produces a closure over the mutable variables
`currentState`, `rootElement`, `updateFn`, `viewFn`, `effectHandlers`,
`runEffectFn`, `isDebugMode`, `debugHistory`; these become the fields of
`Instance`.  Every observable action — each `console.log/warn/error` call
site, each invocation of `runEffectFn`, and each completed `render()` —
is recorded as an `Event` in the trace returned alongside the new
instance.  The DOM work inside `render` (Idiomorph vs `innerHTML`) and the
listener attachment are not further modelled; `Event.render` records that
a render was performed.  `performance.now()`/`Date.now()` timestamps are
abstracted away.
-/

/-- One entry of `debugHistory`: `{ msg, state, timestamp }` with the
wall-clock timestamp abstracted away. -/
structure HistoryEntry where
  msg : JSValue
  state : JSValue

/-- What a handler invocation `handler(effect, dispatch)` does, as far as
the runner inspects it: it either returns normally or throws `err`.  (The
built-in handlers only use their `dispatch` capability asynchronously, so
re-entrant dispatch from inside a handler is not modelled.) -/
inductive HandlerOutcome where
  | ok
  | err (e : JSValue)

/-- An effect handler, keyed by an effect discriminant. -/
abbrev Handler := JSValue → HandlerOutcome

/-- One `console.*` call site of the runtime. -/
inductive LogEvent where
  /-- `console.warn("Spriggan: dispatch called with invalid message", msg)` -/
  | warnInvalidMessage (msg : JSValue)
  /-- `console.log("[Spriggan] Initialized with state:", st)` (debug) -/
  | logInitialized (st : JSValue)
  /-- the `console.group`/`console.log` block of `debugUpdate` (message,
  previous state, new state, `stateDiff`, effects, timing) -/
  | debugDispatchGroup (msg prevState newState : JSValue) (effects : List JSValue)
  /-- `console.warn("[Spriggan] update() returned undefined - ...")` -/
  | warnUndefinedResult
  /-- `console.log("[Spriggan Effect]", eff)` from `debugEffectRunner` -/
  | debugEffectLog (eff : JSValue)
  /-- `console.log` of `"[Spriggan] Running DOM effect: " + effect?.type` -/
  | runnerDebugLog (t : String)
  /-- `console.warn` of `"Spriggan: unknown effect type " + effect.type` -/
  | warnUnknownEffect (t : String)
  /-- `console.error` of `"Spriggan: effect handler ... threw an error"` -/
  | errorHandlerThrew (t : String) (e : JSValue)
  /-- `console.log` of `"[Spriggan] Render took ..."` (debug) -/
  | renderTook
  /-- `console.log("[Spriggan] Time traveled to state:", st)` -/
  | logTimeTravel (st : JSValue)
  /-- `console.warn` of `"[Spriggan] No history entry at index " + i` -/
  | warnNoHistoryEntry (index : Nat)
  /-- `console.log("[Spriggan] History cleared")` -/
  | logHistoryCleared

/-- One observable step of the runtime. -/
inductive Event where
  | log (e : LogEvent)
  | runEffect (eff : JSValue)
  | render

/-- An effect runner `(effect, dispatch, handlers) => void`, observed by
the log events it emits (the `dispatch` capability it receives is only
used asynchronously by the built-in handlers and is not modelled). -/
abbrev Runner := JSValue → List (String × Handler) → List LogEvent

/-- The closure variables of one `createSpriggan()` instance.  `viewFn`
and `rootElement` only matter to the embedding through their presence
(`render` short-circuits when either is null), so they are booleans. -/
structure Instance where
  currentState : JSValue
  updateFn : Option (JSValue → JSValue → JSValue)
  viewPresent : Bool
  rootPresent : Bool
  effectHandlers : List (String × Handler)
  runEffectFn : Option Runner
  isDebugMode : Bool
  debugHistory : List HistoryEntry

/-- `handlers[key]` for a string key (JS property lookup in the merged
handler table). -/
def lookupHandler (handlers : List (String × Handler)) (key : String) : Option Handler :=
  match handlers.find? (fun p => p.1 == key) with
  | some p => some p.2
  | none => none

/-- The object spread `{ ...base, ...overrides }`: all keys of both,
`overrides` winning on a shared key. -/
def spreadMerge (base overrides : List (String × Handler)) : List (String × Handler) :=
  base.filter (fun p => overrides.all (fun q => q.1 != p.1)) ++ overrides

/-- Optional chaining `effect?.type`. -/
def optChainType (effect : JSValue) : JSValue :=
  if isNullish effect then .undef else jsGetField effect "type"

/--
`defaultEffectRunner(effect, dispatch, handlers)`:
debug-log the discriminant, return silently on a falsy effect or falsy
`effect.type`, warn when no handler is registered for the discriminant,
otherwise invoke the handler inside `try`/`catch`, logging (not
re-raising) anything it throws.  The result is the list of log events the
call emits; it never raises.
-/
def defaultEffectRunner (isDebugMode : Bool) (effect : JSValue)
    (handlers : List (String × Handler)) : List LogEvent :=
  let dbg := if isDebugMode then [LogEvent.runnerDebugLog (jsToString (optChainType effect))] else []
  if !(jsTruthy effect && jsTruthy (jsGetField effect "type")) then dbg
  else
    let key := jsToString (jsGetField effect "type")
    match lookupHandler handlers key with
    | none => dbg ++ [.warnUnknownEffect key]
    | some handler =>
      match handler effect with
      | .ok => dbg
      | .err e => dbg ++ [.errorHandlerThrew key e]

/-- `render()`: short-circuits unless both `rootElement` and `viewFn` are
set; otherwise renders (view call + DOM update, recorded as one event)
and, in debug mode, logs the render timing. -/
def renderEvents (inst : Instance) : List Event :=
  if inst.rootPresent && inst.viewPresent then
    [Event.render] ++ (if inst.isDebugMode then [Event.log .renderTook] else [])
  else []

/-- `result[0]` after `Array.isArray(result)` dispatch: the committed
state for a reducer result (first element of an array, else the whole
value; destructuring an empty array yields `undefined`). -/
def resultState (result : JSValue) : JSValue :=
  match result with
  | .arr l => l.headD .undef
  | r => r

/-- `result.slice(1)` when the reducer result is an array, else `[]`. -/
def resultEffects (result : JSValue) : List JSValue :=
  match result with
  | .arr l => l.drop 1
  | _ => []

/-- The log events of one `debugUpdate(update)` invocation: the
`console.group` block (collapsed into one event carrying what it prints),
plus the dedicated warning when the reducer returned `undefined`.  The
history push it performs is applied by `dispatch`. -/
def debugUpdateEvents (prevState msg result : JSValue) : List Event :=
  [Event.log (.debugDispatchGroup msg prevState (resultState result) (resultEffects result))]
    ++ (if isUndef result then [Event.log .warnUndefinedResult] else [])

/-- The `effects.forEach` loop of `dispatch`: a falsy element or an absent
`runEffectFn` is skipped; otherwise the runner is invoked on the element
with the instance's handler table. -/
def effectTrace (runEffectFn : Option Runner) (handlers : List (String × Handler)) :
    List JSValue → List Event
  | [] => []
  | eff :: rest =>
    (if jsTruthy eff then
      match runEffectFn with
      | some run => Event.runEffect eff :: (run eff handlers).map Event.log
      | none => []
     else []) ++ effectTrace runEffectFn handlers rest

/--
`dispatch(msg)`: reject (warn) a falsy message or a message with falsy
`msg.type`; return silently when `updateFn` is null (destroyed instance);
otherwise run the reducer (through `debugUpdate` when in debug mode, which
logs and appends `{msg, newState}` to the history), commit the new state —
the first element when the result is an array, the whole result otherwise
— run the truthy returned effects in order, and re-render.
-/
def dispatch (msg : JSValue) (inst : Instance) : Instance × List Event :=
  if !(jsTruthy msg && jsTruthy (jsGetField msg "type")) then
    (inst, [.log (.warnInvalidMessage msg)])
  else
    match inst.updateFn with
    | none => (inst, [])
    | some update =>
      let result := update inst.currentState msg
      let dbgEvents := if inst.isDebugMode then debugUpdateEvents inst.currentState msg result else []
      let hist :=
        if inst.isDebugMode then inst.debugHistory ++ [⟨msg, resultState result⟩]
        else inst.debugHistory
      let inst' : Instance :=
        { inst with currentState := resultState result, debugHistory := hist }
      (inst', dbgEvents ++ effectTrace inst.runEffectFn inst.effectHandlers (resultEffects result)
        ++ renderEvents inst')

/-- `debug.timeTravel(index)`: when `debugHistory[index]` exists (history
entries are objects, hence truthy), replace the current state with the
recorded one, re-render, and log; otherwise warn and change nothing. -/
def timeTravel (inst : Instance) (index : Nat) : Instance × List Event :=
  match inst.debugHistory[index]? with
  | some entry =>
    let inst' := { inst with currentState := entry.state }
    (inst', renderEvents inst' ++ [.log (.logTimeTravel entry.state)])
  | none => (inst, [.log (.warnNoHistoryEntry index)])

/-- `debug.clearHistory()`: `debugHistory.length = 0` plus a log line. -/
def clearHistory (inst : Instance) : Instance × List Event :=
  ({ inst with debugHistory := [] }, [.log .logHistoryCleared])

/-!
## Construction and destruction
-/

/-- What one cleanup callback collected from `subscriptions` does when
invoked: returns normally or throws. -/
inductive CleanupOutcome where
  | ok
  | err (e : JSValue)

/-- The value returned by the `subscriptions(dispatch)` setup call: no
return value, a single cleanup callback, or an array of them. -/
inductive CleanupReturn where
  | void
  | single (c : CleanupOutcome)
  | many (cs : List CleanupOutcome)

/-- `cleanupFns` normalization in `app`: absent subscriptions or a falsy
return keep the empty list; `Array.isArray(cleanup) ? cleanup : [cleanup]`
otherwise. -/
def normalizeCleanup : Option CleanupReturn → List CleanupOutcome
  | none => []
  | some .void => []
  | some (.single c) => [c]
  | some (.many cs) => cs

/-- The external handle: the instance plus the `cleanupFns` captured by
the closure of `destroy`. -/
structure Handle where
  inst : Instance
  cleanupFns : List CleanupOutcome

/-- The `cleanupFns.forEach((fn) => void fn())` loop: callbacks are
invoked in order; a thrown exception propagates out of `forEach`, so the
callbacks after the throwing one are never invoked.  Returns the list of
callbacks actually invoked and the escaped exception, if any. -/
def runCleanups : List CleanupOutcome → List CleanupOutcome × Option JSValue
  | [] => ([], none)
  | c :: rest =>
    match c with
    | .ok =>
      let (invoked, exc) := runCleanups rest
      (CleanupOutcome.ok :: invoked, exc)
    | .err e => ([CleanupOutcome.err e], some e)

/-- The fields of a destroyed instance: every closure variable nulled
out (listener detachment and `rootElement.innerHTML = ""` are DOM-side). -/
def destroyedInstance : Instance :=
  { currentState := .null
    updateFn := none
    viewPresent := false
    rootPresent := false
    effectHandlers := []
    runEffectFn := none
    isDebugMode := false
    debugHistory := [] }

/-- `destroy()`: run the cleanup callbacks; when one throws, the exception
escapes `destroy` and the tear-down below the loop never happens;
otherwise detach listeners, clear the root and null every reference.
Returns the outcome together with the callbacks that were invoked. -/
def destroy (h : Handle) : Except JSValue Instance × List CleanupOutcome :=
  let (invoked, exc) := runCleanups h.cleanupFns
  match exc with
  | some e => (.error e, invoked)
  | none => (.ok destroyedInstance, invoked)

/-- The `app(selector, config)` configuration object.  `update` and `view`
are functions or absent (`undefined`); for the runtime's truthiness test a
supplied function is always truthy.  `effectRunner` defaults to
`defaultEffectRunner`; `subscriptions` is modelled by the value its setup
call returns. -/
structure Config where
  init : JSValue
  update : Option (JSValue → JSValue → JSValue)
  view : Option Unit
  effects : List (String × Handler)
  effectRunner : Option Runner
  subscriptions : Option CleanupReturn
  debug : Bool

/-- Construction-time failures of `app`. -/
inductive AppError where
  | configurationError
  | mountTargetNotFound
  deriving DecidableEq

/-- `typeof init === "function" ? init() : init`. -/
def initialState : JSValue → JSValue
  | .func ret => ret
  | v => v

/-- The `effectRunner = defaultEffectRunner` destructuring default of
`app`. -/
def appBaseRunner (config : Config) : Runner :=
  match config.effectRunner with
  | some r => r
  | none => defaultEffectRunner config.debug

/-- `runEffectFn = isDebugMode ? debugEffectRunner(effectRunner) :
effectRunner`: the debug wrapper logs the effect before delegating. -/
def appRunEffectFn (config : Config) : Runner :=
  if config.debug then
    fun eff handlers => .debugEffectLog eff :: appBaseRunner config eff handlers
  else appBaseRunner config

/-- The closure variables as `app` initializes them (after validation and
mount-root resolution). -/
def appInstance (defaultEffects : List (String × Handler)) (config : Config) : Instance :=
  { currentState := initialState config.init
    updateFn := config.update
    viewPresent := config.view.isSome
    rootPresent := true
    effectHandlers := spreadMerge defaultEffects config.effects
    runEffectFn := some (appRunEffectFn config)
    isDebugMode := config.debug
    debugHistory := [] }

/--
`app(selector, config)` for one fresh `createSpriggan()` closure.
`defaultEffects` is the table of built-in handlers (their bodies perform
DOM/network/storage side effects outside this embedding, so the table is a
parameter); `elementFound` is whether `document.querySelector(selector)`
finds the mount root.  Throws when `init`, `update` or `view` is falsy,
then when the mount root is missing; otherwise initializes the closure
variables, runs subscriptions, renders once and returns the handle
together with the construction-time event trace.
-/
def app (defaultEffects : List (String × Handler)) (elementFound : Bool)
    (config : Config) : Except AppError (Handle × List Event) :=
  if !(jsTruthy config.init && config.update.isSome && config.view.isSome) then
    .error .configurationError
  else if !elementFound then
    .error .mountTargetNotFound
  else
    let inst := appInstance defaultEffects config
    let initEvents :=
      if config.debug then [Event.log (.logInitialized inst.currentState)] else []
    .ok (⟨inst, normalizeCleanup config.subscriptions⟩, initEvents ++ renderEvents inst)

/-!
## Observables used by the theorems
-/

/-- The effects actually handed to the effect runner in a trace, in
order. -/
def runEffectArgs (trace : List Event) : List JSValue :=
  trace.filterMap (fun ev =>
    match ev with
    | .runEffect eff => some eff
    | _ => none)

/-- The warnings in a trace (`console.warn` call sites). -/
def warnings (trace : List Event) : List LogEvent :=
  trace.filterMap (fun ev =>
    match ev with
    | .log (.warnInvalidMessage m) => some (.warnInvalidMessage m)
    | .log (.warnUnknownEffect t) => some (.warnUnknownEffect t)
    | .log (.warnUndefinedResult) => some .warnUndefinedResult
    | .log (.warnNoHistoryEntry i) => some (.warnNoHistoryEntry i)
    | _ => none)

/-!
## Shared lemmas
-/

theorem runEffectArgs_append (a b : List Event) :
    runEffectArgs (a ++ b) = runEffectArgs a ++ runEffectArgs b := by
  simp [runEffectArgs]

theorem runEffectArgs_map_log (l : List LogEvent) :
    runEffectArgs (l.map Event.log) = [] := by
  induction l with
  | nil => rfl
  | cons x xs ih => simp [runEffectArgs, List.filterMap_cons] at ih ⊢

theorem runEffectArgs_renderEvents (inst : Instance) :
    runEffectArgs (renderEvents inst) = [] := by
  unfold renderEvents
  by_cases h : (inst.rootPresent && inst.viewPresent) = true
  · by_cases hd : inst.isDebugMode = true <;> simp [h, hd, runEffectArgs]
  · simp [h, runEffectArgs]

theorem runEffectArgs_effectTrace (run : Runner) (handlers : List (String × Handler))
    (effs : List JSValue) :
    runEffectArgs (effectTrace (some run) handlers effs) = effs.filter jsTruthy := by
  induction effs with
  | nil => rfl
  | cons e rest ih =>
    by_cases h : jsTruthy e = true
    · have step : effectTrace (some run) handlers (e :: rest)
          = (Event.runEffect e :: (run e handlers).map Event.log)
            ++ effectTrace (some run) handlers rest := by
        simp [effectTrace, h]
      rw [step, runEffectArgs_append]
      have head : runEffectArgs (Event.runEffect e :: (run e handlers).map Event.log)
          = e :: runEffectArgs ((run e handlers).map Event.log) := rfl
      rw [head, runEffectArgs_map_log, ih]
      simp [List.filter_cons, h]
    · have step : effectTrace (some run) handlers (e :: rest)
          = effectTrace (some run) handlers rest := by
        simp [effectTrace, h]
      rw [step, ih]
      simp [List.filter_cons, h]

theorem renderEvents_state_update (inst : Instance) (s : JSValue) (hist : List HistoryEntry) :
    renderEvents { inst with currentState := s, debugHistory := hist } = renderEvents inst := rfl

theorem renderEvents_congr (a b : Instance) (h1 : a.rootPresent = b.rootPresent)
    (h2 : a.viewPresent = b.viewPresent) (h3 : a.isDebugMode = b.isDebugMode) :
    renderEvents a = renderEvents b := by
  unfold renderEvents
  rw [h1, h2, h3]

theorem runEffectArgs_nil : runEffectArgs [] = [] := rfl

theorem runEffectArgs_debugUpdateEvents (prevState msg result : JSValue) :
    runEffectArgs (debugUpdateEvents prevState msg result) = [] := by
  unfold debugUpdateEvents
  by_cases h : isUndef result = true <;> simp [h, runEffectArgs]

theorem resultState_of_not_array (r : JSValue) (h : isArray r = false) :
    resultState r = r := by
  cases r <;> first | rfl | simp [isArray] at h

theorem resultEffects_of_not_array (r : JSValue) (h : isArray r = false) :
    resultEffects r = [] := by
  cases r <;> first | rfl | simp [isArray] at h

/-- The instance after a `dispatch` that passes the validity check, on an
instance that still has its reducer. -/
theorem dispatch_accept_state (inst : Instance) (msg : JSValue)
    (u : JSValue → JSValue → JSValue)
    (hm : (jsTruthy msg && jsTruthy (jsGetField msg "type")) = true)
    (hu : inst.updateFn = some u) :
    (dispatch msg inst).1 =
      { inst with
        currentState := resultState (u inst.currentState msg)
        debugHistory :=
          if inst.isDebugMode then
            inst.debugHistory ++ [⟨msg, resultState (u inst.currentState msg)⟩]
          else inst.debugHistory } := by
  simp [dispatch, hm, hu]

/-- The event trace of a `dispatch` that passes the validity check, on an
instance that still has its reducer. -/
theorem dispatch_accept_trace (inst : Instance) (msg : JSValue)
    (u : JSValue → JSValue → JSValue)
    (hm : (jsTruthy msg && jsTruthy (jsGetField msg "type")) = true)
    (hu : inst.updateFn = some u) :
    (dispatch msg inst).2 =
      (if inst.isDebugMode then
        debugUpdateEvents inst.currentState msg (u inst.currentState msg)
       else [])
        ++ effectTrace inst.runEffectFn inst.effectHandlers
            (resultEffects (u inst.currentState msg))
        ++ renderEvents inst := by
  simp [dispatch, hm, hu]
  exact renderEvents_congr _ _ rfl rfl rfl

/-- `defaultEffectRunner` on an effect passing the falsy guard whose
discriminant has no registered handler. -/
theorem defaultEffectRunner_unknown (dbg : Bool) (effect : JSValue)
    (handlers : List (String × Handler))
    (hg : (jsTruthy effect && jsTruthy (jsGetField effect "type")) = true)
    (hlk : lookupHandler handlers (jsToString (jsGetField effect "type")) = none) :
    defaultEffectRunner dbg effect handlers
      = (if dbg then [LogEvent.runnerDebugLog (jsToString (optChainType effect))] else [])
        ++ [.warnUnknownEffect (jsToString (jsGetField effect "type"))] := by
  unfold defaultEffectRunner
  rw [hg]
  simp only [Bool.not_true, Bool.false_eq_true, if_false]
  rw [hlk]

/-- `defaultEffectRunner` on an effect passing the falsy guard whose
resolved handler returns normally. -/
theorem defaultEffectRunner_handlerOk (dbg : Bool) (effect : JSValue)
    (handlers : List (String × Handler)) (h : Handler)
    (hg : (jsTruthy effect && jsTruthy (jsGetField effect "type")) = true)
    (hlk : lookupHandler handlers (jsToString (jsGetField effect "type")) = some h)
    (hh : h effect = .ok) :
    defaultEffectRunner dbg effect handlers
      = (if dbg then [LogEvent.runnerDebugLog (jsToString (optChainType effect))] else []) := by
  unfold defaultEffectRunner
  rw [hg]
  simp only [Bool.not_true, Bool.false_eq_true, if_false]
  rw [hlk]
  simp only [hh]

/-- `defaultEffectRunner` on an effect passing the falsy guard whose
resolved handler throws: the exception is caught and logged. -/
theorem defaultEffectRunner_handlerThrew (dbg : Bool) (effect : JSValue)
    (handlers : List (String × Handler)) (h : Handler) (e : JSValue)
    (hg : (jsTruthy effect && jsTruthy (jsGetField effect "type")) = true)
    (hlk : lookupHandler handlers (jsToString (jsGetField effect "type")) = some h)
    (hh : h effect = .err e) :
    defaultEffectRunner dbg effect handlers
      = (if dbg then [LogEvent.runnerDebugLog (jsToString (optChainType effect))] else [])
        ++ [.errorHandlerThrew (jsToString (jsGetField effect "type")) e] := by
  unfold defaultEffectRunner
  rw [hg]
  simp only [Bool.not_true, Bool.false_eq_true, if_false]
  rw [hlk]
  simp only [hh]

/-- `defaultEffectRunner` on an effect that fails the falsy guard: only
the debug log, before the guard, is emitted. -/
theorem defaultEffectRunner_falsy (dbg : Bool) (effect : JSValue)
    (handlers : List (String × Handler))
    (hg : (jsTruthy effect && jsTruthy (jsGetField effect "type")) = false) :
    defaultEffectRunner dbg effect handlers
      = (if dbg then [LogEvent.runnerDebugLog (jsToString (optChainType effect))] else []) := by
  unfold defaultEffectRunner
  rw [hg]
  simp only [Bool.not_false, if_true]

/-- Unfolding of `dispatch` for a message that fails the validity check. -/
theorem dispatch_reject (inst : Instance) (msg : JSValue)
    (hm : (jsTruthy msg && jsTruthy (jsGetField msg "type")) = false) :
    dispatch msg inst = (inst, [.log (.warnInvalidMessage msg)]) := by
  simp [dispatch, hm]

/-!
## Claim C3 — the message validity check

The check in `dispatch` is `if (!msg || !msg.type)`: it tests the
truthiness of the discriminant, not whether it is a string.  A message
with a truthy non-string `type` (for example `{type: 1}`) is **not**
rejected — the reducer runs and the state changes — and a message whose
`type` is the empty string **is** rejected although its discriminant is a
string.
-/

/-- A reducer that visibly records that it was invoked. -/
def c3Update : JSValue → JSValue → JSValue := fun _ _ => .str "changed"

/-- A live non-debug instance with reducer `c3Update`. -/
def c3Inst : Instance :=
  { currentState := .str "initial"
    updateFn := some c3Update
    viewPresent := true
    rootPresent := true
    effectHandlers := []
    runEffectFn := some (defaultEffectRunner false)
    isDebugMode := false
    debugHistory := [] }

/-- C3 (counterexample): dispatching `{type: 1}` — a message whose
discriminant is **not** a string — is not rejected: the reducer is invoked
(the state changes to `"changed"`) and no warning is logged; and
dispatching `{type: ""}` — a message whose discriminant **is** a string —
is rejected with the invalid-message warning. -/
theorem c3_nonstring_type_not_rejected :
    (dispatch (.obj [("type", .num 1)]) c3Inst).1.currentState = .str "changed"
    ∧ warnings (dispatch (.obj [("type", .num 1)]) c3Inst).2 = []
    ∧ dispatch (.obj [("type", .str "")]) c3Inst
        = (c3Inst, [.log (.warnInvalidMessage (.obj [("type", .str "")]))]) :=
  ⟨rfl, rfl, rfl⟩

/-- C3 (amended): `dispatch` rejects exactly the messages that are falsy
or whose `type` field is falsy: such a dispatch logs exactly one warning,
does not throw, does not invoke the reducer and leaves the state
unchanged; every message whose `type` is truthy passes the check, the
reducer is invoked and its result is committed. -/
theorem c3_dispatch_validity_gate (inst : Instance) (msg : JSValue)
    (u : JSValue → JSValue → JSValue) (hu : inst.updateFn = some u) :
    ((jsTruthy msg && jsTruthy (jsGetField msg "type")) = false →
      dispatch msg inst = (inst, [.log (.warnInvalidMessage msg)]))
    ∧ ((jsTruthy msg && jsTruthy (jsGetField msg "type")) = true →
      (dispatch msg inst).1.currentState = resultState (u inst.currentState msg)) := by
  constructor
  · intro hm
    exact dispatch_reject inst msg hm
  · intro hm
    rw [dispatch_accept_state inst msg u hm hu]

/-- Witness for C3 (amended): at `c3Inst`, the falsy-type message
`{type: ""}` is rejected with one warning and the truthy-type message
`{type: "Go"}` commits the reducer's result. -/
theorem c3_dispatch_validity_gate_witness :
    dispatch (.obj [("type", .str "")]) c3Inst
        = (c3Inst, [.log (.warnInvalidMessage (.obj [("type", .str "")]))])
    ∧ (dispatch (.obj [("type", .str "Go")]) c3Inst).1.currentState
        = resultState (c3Update c3Inst.currentState (.obj [("type", .str "Go")])) :=
  ⟨(c3_dispatch_validity_gate c3Inst (.obj [("type", .str "")]) c3Update rfl).1 rfl,
   (c3_dispatch_validity_gate c3Inst (.obj [("type", .str "Go")]) c3Update rfl).2 rfl⟩

/-!
## Claim C1 — commit and effect hand-off in `dispatch`

The committed state is exactly `resultState` of the reducer's result and
all effect-runner invocations happen before the re-render; but the
`effects.forEach` loop guards each element with `if (eff && runEffectFn)`,
so a **falsy** remaining element (e.g. `null`) is never handed to the
effect runner, contrary to the claim's "each remaining element".
-/

/-- A reducer returning a pair whose effect slot holds the falsy value
`null`. -/
def c1Update : JSValue → JSValue → JSValue := fun _ _ => .arr [.str "sA", .null]

/-- A live non-debug instance with reducer `c1Update` and the default
effect runner. -/
def c1Inst : Instance :=
  { currentState := .null
    updateFn := some c1Update
    viewPresent := true
    rootPresent := true
    effectHandlers := []
    runEffectFn := some (defaultEffectRunner false)
    isDebugMode := false
    debugHistory := [] }

/-- C1 (counterexample): the reducer returns `["sA", null]`; the committed
state is `"sA"` but the remaining element `null` — the list of remaining
elements is `[null]`, not empty — is never handed to the effect runner. -/
theorem c1_falsy_effect_not_handed_to_runner :
    (dispatch (.obj [("type", .str "Go")]) c1Inst).1.currentState = .str "sA"
    ∧ runEffectArgs (dispatch (.obj [("type", .str "Go")]) c1Inst).2 = []
    ∧ resultEffects (c1Update c1Inst.currentState (.obj [("type", .str "Go")]))
        = [JSValue.null] :=
  ⟨rfl, rfl, rfl⟩

/-- C1 (amended): for every message with a truthy `type` dispatched to a
live instance — reducer and effect runner still installed — if the
reducer's result is an array, `getState()` immediately afterwards returns
exactly the array's first element and each **truthy** remaining element is
handed to the effect runner in the order returned, all of them before the
re-render (falsy remaining elements are skipped); if the result is not an
array, `getState()` returns exactly the whole result and no effect runner
call is made. -/
theorem c1_dispatch_commit_and_effects (inst : Instance) (msg : JSValue)
    (u : JSValue → JSValue → JSValue) (run : Runner)
    (hm : (jsTruthy msg && jsTruthy (jsGetField msg "type")) = true)
    (hu : inst.updateFn = some u)
    (hr : inst.runEffectFn = some run) :
    (∀ l, u inst.currentState msg = .arr l →
      (dispatch msg inst).1.currentState = l.headD .undef
      ∧ (∃ pre, (dispatch msg inst).2 = pre ++ renderEvents inst
          ∧ runEffectArgs pre = (l.drop 1).filter jsTruthy)
      ∧ runEffectArgs (renderEvents inst) = [])
    ∧ (isArray (u inst.currentState msg) = false →
      (dispatch msg inst).1.currentState = u inst.currentState msg
      ∧ runEffectArgs (dispatch msg inst).2 = []) := by
  have hdbg : ∀ result,
      runEffectArgs
        (if inst.isDebugMode then debugUpdateEvents inst.currentState msg result else [])
        = [] := by
    intro result
    by_cases hdm : inst.isDebugMode = true <;>
      simp [hdm, runEffectArgs_debugUpdateEvents, runEffectArgs_nil]
  constructor
  · intro l hl
    have htr := dispatch_accept_trace inst msg u hm hu
    have hstt := dispatch_accept_state inst msg u hm hu
    rw [hl] at htr hstt
    refine ⟨?_, ?_, runEffectArgs_renderEvents inst⟩
    · rw [hstt]
      rfl
    · refine ⟨(if inst.isDebugMode then debugUpdateEvents inst.currentState msg (.arr l) else [])
        ++ effectTrace inst.runEffectFn inst.effectHandlers (resultEffects (.arr l)), ?_, ?_⟩
      · rw [htr, List.append_assoc]
      · rw [runEffectArgs_append, hr, runEffectArgs_effectTrace, hdbg]
        rfl
  · intro hna
    have htr := dispatch_accept_trace inst msg u hm hu
    have hstt := dispatch_accept_state inst msg u hm hu
    have heff := resultEffects_of_not_array (u inst.currentState msg) hna
    have hst := resultState_of_not_array (u inst.currentState msg) hna
    constructor
    · rw [hstt]
      exact hst
    · rw [htr, heff, runEffectArgs_append, runEffectArgs_append, hdbg,
        runEffectArgs_renderEvents]
      rfl

/-- A reducer returning a pair with one truthy effect. -/
def c1WitUpdate : JSValue → JSValue → JSValue :=
  fun _ _ => .arr [.str "s1", .obj [("type", .str "fx")]]

/-- A live non-debug instance with reducer `c1WitUpdate`. -/
def c1WitInst : Instance :=
  { currentState := .null
    updateFn := some c1WitUpdate
    viewPresent := true
    rootPresent := true
    effectHandlers := []
    runEffectFn := some (defaultEffectRunner false)
    isDebugMode := false
    debugHistory := [] }

/-- A reducer returning a bare (non-array) state. -/
def c1PlainUpdate : JSValue → JSValue → JSValue := fun _ _ => .str "plain"

/-- A live non-debug instance with reducer `c1PlainUpdate`. -/
def c1PlainInst : Instance :=
  { currentState := .null
    updateFn := some c1PlainUpdate
    viewPresent := true
    rootPresent := true
    effectHandlers := []
    runEffectFn := some (defaultEffectRunner false)
    isDebugMode := false
    debugHistory := [] }

/-- Witness for C1 (amended): a reducer returning
`["s1", {type:"fx"}]` on a live instance commits `"s1"` and hands exactly
`{type:"fx"}` to the runner before the render; a reducer returning a bare
object commits it and runs no effects. -/
theorem c1_dispatch_commit_and_effects_witness :
    ((dispatch (.obj [("type", .str "Go")]) c1WitInst).1.currentState
        = (JSValue.str "s1")
      ∧ (∃ pre, (dispatch (.obj [("type", .str "Go")]) c1WitInst).2
            = pre ++ renderEvents c1WitInst
          ∧ runEffectArgs pre
              = ([JSValue.obj [("type", .str "fx")]].filter jsTruthy))
      ∧ runEffectArgs (renderEvents c1WitInst) = [])
    ∧ ((dispatch (.obj [("type", .str "Other")]) c1PlainInst).1.currentState
        = .str "plain"
      ∧ runEffectArgs (dispatch (.obj [("type", .str "Other")]) c1PlainInst).2 = []) := by
  constructor
  · have h := (c1_dispatch_commit_and_effects c1WitInst (.obj [("type", .str "Go")])
      c1WitUpdate (defaultEffectRunner false) rfl rfl rfl).1
      [.str "s1", .obj [("type", .str "fx")]] rfl
    exact ⟨h.1, h.2.1, h.2.2⟩
  · exact (c1_dispatch_commit_and_effects c1PlainInst (.obj [("type", .str "Other")])
      c1PlainUpdate (defaultEffectRunner false) rfl rfl rfl).2 rfl

/-!
## Claim C2 — the effect interpreter's protective boundary

`defaultEffectRunner` resolves a (truthy) discriminant against the handler
table — cf. C10: a falsy effect or discriminant returns before resolution
— warns when the lookup finds nothing, and wraps the handler call in
`try`/`catch` so a throwing handler is logged and the surrounding dispatch
continues.
-/

/-- The effect `{type: "boom"}` used by the crash scenario. -/
def boomEff : JSValue := .obj [("type", .str "boom")]

/-- C2: for every effect and handler table (the effect passing the falsy
guard, so that its discriminant is actually resolved): (1) when the
discriminant resolves to no registered handler, the runner emits the
unknown-effect warning naming it and returns; (2) when the resolved
handler throws, the exception is caught and logged with the offending
discriminant — the runner still returns a log, never raises; (3) dispatch
survival: for a reducer returning `[stateA, {type:"boom"}]` with a
registered throwing `boom` handler, `getState()` equals `stateA`
afterwards, the handler error is logged, and a subsequent dispatch of any
valid message still commits the reducer's result. -/
theorem c2_default_runner_protective :
    (∀ (dbg : Bool) (effect : JSValue) (handlers : List (String × Handler)),
      (jsTruthy effect && jsTruthy (jsGetField effect "type")) = true →
      lookupHandler handlers (jsToString (jsGetField effect "type")) = none →
      defaultEffectRunner dbg effect handlers
        = (if dbg then [.runnerDebugLog (jsToString (optChainType effect))] else [])
          ++ [.warnUnknownEffect (jsToString (jsGetField effect "type"))])
    ∧ (∀ (dbg : Bool) (effect : JSValue) (handlers : List (String × Handler))
        (h : Handler) (e : JSValue),
      (jsTruthy effect && jsTruthy (jsGetField effect "type")) = true →
      lookupHandler handlers (jsToString (jsGetField effect "type")) = some h →
      h effect = .err e →
      defaultEffectRunner dbg effect handlers
        = (if dbg then [.runnerDebugLog (jsToString (optChainType effect))] else [])
          ++ [.errorHandlerThrew (jsToString (jsGetField effect "type")) e])
    ∧ (∀ (inst : Instance) (u : JSValue → JSValue → JSValue)
        (msg1 msg2 stateA : JSValue) (hB : Handler) (e : JSValue),
      inst.updateFn = some u →
      inst.runEffectFn = some (defaultEffectRunner false) →
      inst.isDebugMode = false →
      (jsTruthy msg1 && jsTruthy (jsGetField msg1 "type")) = true →
      u inst.currentState msg1 = .arr [stateA, boomEff] →
      lookupHandler inst.effectHandlers "boom" = some hB →
      hB boomEff = .err e →
      (dispatch msg1 inst).1.currentState = stateA
      ∧ Event.log (.errorHandlerThrew "boom" e) ∈ (dispatch msg1 inst).2
      ∧ ((jsTruthy msg2 && jsTruthy (jsGetField msg2 "type")) = true →
        (dispatch msg2 (dispatch msg1 inst).1).1.currentState
          = resultState (u stateA msg2))) := by
  refine ⟨?_, ?_, ?_⟩
  · intro dbg effect handlers hg hlk
    exact defaultEffectRunner_unknown dbg effect handlers hg hlk
  · intro dbg effect handlers h e hg hlk hthrow
    exact defaultEffectRunner_handlerThrew dbg effect handlers h e hg hlk hthrow
  · intro inst u msg1 msg2 stateA hB e hu hr hdm hm1 hres hlk hthrow
    have hrun : defaultEffectRunner false boomEff inst.effectHandlers
        = [.errorHandlerThrew "boom" e] := by
      exact defaultEffectRunner_handlerThrew false boomEff inst.effectHandlers hB e
        rfl hlk hthrow
    have hstt := dispatch_accept_state inst msg1 u hm1 hu
    rw [hres] at hstt
    have htr := dispatch_accept_trace inst msg1 u hm1 hu
    rw [hres] at htr
    refine ⟨?_, ?_, ?_⟩
    · rw [hstt]
      rfl
    · rw [htr, hdm, hr]
      have het : effectTrace (some (defaultEffectRunner false)) inst.effectHandlers
          (resultEffects (.arr [stateA, boomEff]))
          = [Event.runEffect boomEff, Event.log (.errorHandlerThrew "boom" e)] := by
        show effectTrace (some (defaultEffectRunner false)) inst.effectHandlers [boomEff] = _
        have hb : jsTruthy boomEff = true := rfl
        simp [effectTrace, hb, hrun]
      rw [het]
      simp
    · intro hm2
      have hu2 : (dispatch msg1 inst).1.updateFn = some u := by
        rw [hstt]
        exact hu
      have hstt2 := dispatch_accept_state (dispatch msg1 inst).1 msg2 u hm2 hu2
      rw [hstt2]
      have hcs : (dispatch msg1 inst).1.currentState = stateA := by
        rw [hstt]
        rfl
      rw [hcs]

/-- The reducer of the C2 scenario witness: `Go` yields
`["A", {type:"boom"}]`, anything else the bare state `"B"`. -/
def c2Update : JSValue → JSValue → JSValue := fun s msg =>
  match jsGetField msg "type" with
  | .str t => if t == "Go" then .arr [.str "A", boomEff] else .str "B"
  | _ => s

/-- A handler that always throws `"E"`. -/
def c2Crash : Handler := fun _ => .err (.str "E")

/-- The live instance of the C2 scenario witness. -/
def c2Inst : Instance :=
  { currentState := .null
    updateFn := some c2Update
    viewPresent := true
    rootPresent := true
    effectHandlers := [("boom", c2Crash)]
    runEffectFn := some (defaultEffectRunner false)
    isDebugMode := false
    debugHistory := [] }

/-- Witness for C2: an unregistered `{type:"nope"}` warns; the registered
throwing handler is caught and logged; on `c2Inst` the crash scenario
commits `"A"`, logs the handler error, and the follow-up dispatch commits
`"B"`. -/
theorem c2_default_runner_protective_witness :
    defaultEffectRunner false (.obj [("type", .str "nope")]) []
      = [.warnUnknownEffect "nope"]
    ∧ defaultEffectRunner false boomEff [("boom", c2Crash)]
      = [.errorHandlerThrew "boom" (.str "E")]
    ∧ (dispatch (.obj [("type", .str "Go")]) c2Inst).1.currentState = .str "A"
    ∧ Event.log (.errorHandlerThrew "boom" (.str "E"))
        ∈ (dispatch (.obj [("type", .str "Go")]) c2Inst).2
    ∧ (dispatch (.obj [("type", .str "Next")])
        (dispatch (.obj [("type", .str "Go")]) c2Inst).1).1.currentState
      = resultState (c2Update (.str "A") (.obj [("type", .str "Next")])) := by
  have h1 := c2_default_runner_protective.1 false (.obj [("type", .str "nope")]) []
    rfl rfl
  have h2 := c2_default_runner_protective.2.1 false boomEff [("boom", c2Crash)]
    c2Crash (.str "E") rfl rfl rfl
  have h3 := c2_default_runner_protective.2.2 c2Inst c2Update
    (.obj [("type", .str "Go")]) (.obj [("type", .str "Next")]) (.str "A")
    c2Crash (.str "E") rfl rfl rfl rfl rfl rfl rfl
  exact ⟨h1, h2, h3.1, h3.2.1, h3.2.2 rfl⟩

/-!
## Claim C10 — falsy effects are silently ignored by the runner

`if (!effect || !effect.type) return;` precedes both the handler lookup
and the unknown-effect warning (only the debug-mode `console.log` of the
discriminant comes before it, and that is not a warning).
-/

/-- C10: for every effect that is falsy or has a falsy `type`, the default
runner's output is just the debug-mode log of the discriminant — no
warning, no handler invocation (the output does not depend on the handler
table at all); and conversely the unknown-effect warning only ever appears
for a truthy effect with truthy discriminant that resolves to no
registered handler. -/
theorem c10_falsy_effect_silently_ignored :
    (∀ (dbg : Bool) (effect : JSValue) (handlers : List (String × Handler)),
      (jsTruthy effect && jsTruthy (jsGetField effect "type")) = false →
      defaultEffectRunner dbg effect handlers
        = (if dbg then [.runnerDebugLog (jsToString (optChainType effect))] else [])
      ∧ defaultEffectRunner dbg effect handlers = defaultEffectRunner dbg effect [])
    ∧ (∀ (dbg : Bool) (effect : JSValue) (handlers : List (String × Handler)) (t : String),
      LogEvent.warnUnknownEffect t ∈ defaultEffectRunner dbg effect handlers →
      (jsTruthy effect && jsTruthy (jsGetField effect "type")) = true
      ∧ t = jsToString (jsGetField effect "type")
      ∧ lookupHandler handlers t = none) := by
  constructor
  · intro dbg effect handlers hg
    exact ⟨defaultEffectRunner_falsy dbg effect handlers hg,
      (defaultEffectRunner_falsy dbg effect handlers hg).trans
        (defaultEffectRunner_falsy dbg effect [] hg).symm⟩
  · intro dbg effect handlers t hmem
    by_cases hg : (jsTruthy effect && jsTruthy (jsGetField effect "type")) = true
    · refine ⟨hg, ?_⟩
      cases hlk : lookupHandler handlers (jsToString (jsGetField effect "type")) with
      | none =>
        rw [defaultEffectRunner_unknown dbg effect handlers hg hlk] at hmem
        by_cases hdm : dbg = true <;> simp [hdm] at hmem <;> simp [hmem, hlk]
      | some handler =>
        cases hh : handler effect with
        | ok =>
          rw [defaultEffectRunner_handlerOk dbg effect handlers handler hg hlk hh] at hmem
          by_cases hdm : dbg = true <;> simp [hdm] at hmem
        | err e =>
          rw [defaultEffectRunner_handlerThrew dbg effect handlers handler e hg hlk hh] at hmem
          by_cases hdm : dbg = true <;> simp [hdm] at hmem
    · rw [Bool.not_eq_true] at hg
      exfalso
      rw [defaultEffectRunner_falsy dbg effect handlers hg] at hmem
      by_cases hdm : dbg = true <;> simp [hdm] at hmem

/-- Witness for C10: the falsy-discriminant effect `{type: ""}` produces
only the debug log (and nothing at all outside debug mode) independently
of the handler table, and the unknown-effect warning for `{type:"zap"}`
against an empty table satisfies the converse characterization. -/
theorem c10_falsy_effect_silently_ignored_witness :
    (defaultEffectRunner true (.obj [("type", .str "")]) [("x", c2Crash)]
        = [.runnerDebugLog ""]
      ∧ defaultEffectRunner true (.obj [("type", .str "")]) [("x", c2Crash)]
        = defaultEffectRunner true (.obj [("type", .str "")]) [])
    ∧ ((jsTruthy (JSValue.obj [("type", .str "zap")])
          && jsTruthy (jsGetField (.obj [("type", .str "zap")]) "type")) = true
      ∧ "zap" = jsToString (jsGetField (.obj [("type", .str "zap")]) "type")
      ∧ lookupHandler [] "zap" = none) := by
  constructor
  · exact c10_falsy_effect_silently_ignored.1 true (.obj [("type", .str "")])
      [("x", c2Crash)] rfl
  · exact c10_falsy_effect_silently_ignored.2 false (.obj [("type", .str "zap")]) []
      "zap" (List.mem_singleton.mpr rfl)

/-!
## Claim C4 — totality of the template encoder

`html` never throws **except** through `JSON.stringify` in the
Message-shaped branch: `JSON.stringify` throws a `TypeError` on a value it
cannot serialize (a `BigInt`; in full JS also a circular structure, which
an inductive value cannot express).  So an interpolated object with a
string `type` field containing a BigInt makes `html` throw.
-/

/-- Whether `JSON.stringify(v)` returns (does not throw). -/
def jsonOk (v : JSValue) : Bool :=
  match jsonStringify v with
  | .ok _ => true
  | .error _ => false

/-- The exact condition under which `html` handles an interpolated value
without throwing: either the value is not Message-shaped (every other
branch of the encoder is total — in particular a bare BigInt goes through
plain string coercion), or it is Message-shaped and `JSON.stringify`
serializes it. -/
def htmlSerializable (v : JSValue) : Bool :=
  !isMessageShaped v || jsonOk v

theorem htmlValue_ok (v : JSValue) (h : htmlSerializable v = true) :
    ∃ s, htmlValue v = Except.ok s := by
  cases v with
  | arr xs => exact ⟨_, rfl⟩
  | undef => exact ⟨_, rfl⟩
  | null => exact ⟨_, rfl⟩
  | bool b => cases b <;> exact ⟨_, rfl⟩
  | num n => exact ⟨_, rfl⟩
  | str s => exact ⟨_, rfl⟩
  | bigint n => exact ⟨_, rfl⟩
  | func r => exact ⟨_, rfl⟩
  | obj fs =>
    by_cases hm : isMessageShaped (.obj fs) = true
    · have hok : jsonOk (JSValue.obj fs) = true := by
        simp [htmlSerializable, hm] at h
        exact h
      cases hjs : jsonStringify (JSValue.obj fs) with
      | error e => simp [jsonOk, hjs] at hok
      | ok o =>
        exact ⟨squote ++ o.getD "undefined" ++ squote,
          by simp [htmlValue, hm, hjs, isNullish, isBoolLit]⟩
    · exact ⟨jsToString (.obj fs), by simp [htmlValue, hm, isNullish, isBoolLit]⟩

theorem htmlLoop_ok (strings : List String) :
    ∀ (values : List JSValue) (i : Nat) (acc : String),
    values.all htmlSerializable = true → ∃ s, htmlLoop strings i values acc = Except.ok s
  | [], _, acc, _ => ⟨acc, rfl⟩
  | v :: rest, i, acc, h => by
    have hvr : htmlSerializable v = true ∧ rest.all htmlSerializable = true := by
      rw [List.all_cons, Bool.and_eq_true] at h
      exact h
    have hv : htmlSerializable v = true := hvr.1
    have hr : rest.all htmlSerializable = true := hvr.2
    have hv2 : htmlSerializable (if isNullish v then JSValue.str "" else v) = true := by
      by_cases hn : isNullish v = true
      · simp [hn, htmlSerializable, isMessageShaped]
      · simp [hn, hv]
    obtain ⟨piece, hp⟩ := htmlValue_ok _ hv2
    obtain ⟨s, hs⟩ := htmlLoop_ok strings rest (i + 1)
      (acc ++ piece ++ (match strings[i + 1]? with | some s => s | none => "undefined"))
      hr
    exact ⟨s, by simp [htmlLoop, hp, hs]⟩

/-- C4 (counterexample): interpolating the Message-shaped object
`{type: "x", n: 1n}` (a string `type` field plus a BigInt payload) makes
`html` throw: `JSON.stringify` raises a `TypeError` that propagates out of
the encoder, so `html` is not total. -/
theorem c4_html_throws_on_unserializable_message :
    html ["", ""] [.obj [("type", .str "x"), ("n", .bigint 1)]] = .error () := rfl

/-- C4 (amended): the template encoder returns a plain string for every
sequence of literal fragments and every interpolated values in which no
Message-shaped value fails JSON serialization (`htmlSerializable`: every
value either is not Message-shaped — those branches, including plain
string coercion of a bare BigInt, are total — or serializes); when a
Message-shaped value cannot be serialized, `JSON.stringify`'s `TypeError`
propagates, so `html` is not total on all values. -/
theorem c4_html_total_on_serializable (strings : List String) (values : List JSValue)
    (h : values.all htmlSerializable = true) :
    ∃ s, html strings values = Except.ok s :=
  htmlLoop_ok strings values 0 (strings.headD "") h

/-- Witness for C4 (amended): an interpolation list containing a bare
BigInt, a BigInt inside a non-Message-shaped object, a serializable
Message-shaped object, `null`, a string and an array satisfies the
condition and produces a string. -/
theorem c4_html_total_on_serializable_witness :
    ([JSValue.bigint 1, .obj [("n", .bigint 2)], .obj [("type", .str "Inc")],
        .null, .str "a", .arr [.num 1, .num 2]].all htmlSerializable) = true
    ∧ ∃ s, html ["<p>", "", "", "", "", "", "</p>"]
        [JSValue.bigint 1, .obj [("n", .bigint 2)], .obj [("type", .str "Inc")],
          .null, .str "a", .arr [.num 1, .num 2]] = Except.ok s :=
  ⟨rfl, c4_html_total_on_serializable _ _ rfl⟩

/-!
## Claim C9 — array interpolation uses `join("")`, not `String(element)`

`html` renders an array value via `value.join("")`, and
`Array.prototype.join` converts `null` and `undefined` elements to the
**empty string**, while `String(null)` is `"null"` and `String(undefined)`
is `"undefined"`.
-/

theorem String_join_cons (s : String) (l : List String) :
    String.join (s :: l) = s ++ String.join l := by
  simp [String.join_eq]
  rfl

theorem joinList_empty_sep (xs : List JSValue) :
    joinList "" xs = String.join (xs.map joinElem) := by
  induction xs with
  | nil => rfl
  | cons v rest ih =>
    cases rest with
    | nil =>
      rw [joinList_singleton]
      simp [String_join_cons, String.join]
    | cons w rs =>
      rw [joinList_cons_cons, List.map_cons, String_join_cons, ← ih,
        String.append_empty]

/-- C9 (counterexample): interpolating the one-element array `[null]`
emits the empty string, whereas `String(null)` is `"null"` — contradicting
"the emitted text equals `String(e[0]) + ...` including null elements". -/
theorem c9_null_element_dropped :
    html ["", ""] [.arr [JSValue.null]] = .ok ""
    ∧ jsToString JSValue.null = "null"
    ∧ ("" : String) ≠ "null" :=
  ⟨rfl, rfl, by decide⟩

/-- C9 (amended): for every array-like interpolated value the encoder
emits the concatenation, with no separator, of the `join` conversion of
each element: `null` and `undefined` elements contribute the empty string
and every other element contributes `String(element)` (JS
`Array.prototype.join` semantics). -/
theorem c9_array_interpolation_joins (pre post : String) (xs : List JSValue) :
    html [pre, post] [.arr xs]
      = .ok (pre ++ String.join (xs.map joinElem) ++ post)
    ∧ joinElem .null = "" ∧ joinElem .undef = ""
    ∧ ∀ v, isNullish v = false → joinElem v = jsToString v := by
  refine ⟨?_, rfl, rfl, ?_⟩
  · have h0 : html [pre, post] [.arr xs] = .ok (pre ++ joinList "" xs ++ post) := rfl
    rw [h0, joinList_empty_sep]
  · intro v hn
    cases v <;> first | rfl | simp [isNullish] at hn

/-- Witness for C9 (amended): `["a", null, 3]` interpolated between `<ul>`
and `</ul>` emits `<ul>a3</ul>`. -/
theorem c9_array_interpolation_joins_witness :
    html ["<ul>", "</ul>"] [.arr [.str "a", .null, .num 3]]
      = .ok ("<ul>" ++ String.join ([JSValue.str "a", .null, .num 3].map joinElem)
          ++ "</ul>")
    ∧ isNullish (JSValue.num 3) = false
    ∧ joinElem (JSValue.num 3) = jsToString (JSValue.num 3) :=
  ⟨(c9_array_interpolation_joins "<ul>" "</ul>" [.str "a", .null, .num 3]).1,
   rfl,
   (c9_array_interpolation_joins "<ul>" "</ul>" [.str "a", .null, .num 3]).2.2.2
     (JSValue.num 3) rfl⟩

/-!
## Claim C5 — config validation in `app`

The check is `if (!init || !update || !view) throw ...`: truthiness, not
presence.  A **present** but falsy `init` — the literal `0` or `false` —
also throws the configuration error, instead of becoming the initial
State.
-/

/-- A trivial reducer used to build concrete configurations. -/
def idUpdate : JSValue → JSValue → JSValue := fun s _ => s

/-- A configuration whose three required fields are all present, with the
literal falsy value `0` as `init`. -/
def c5ZeroCfg : Config :=
  { init := .num 0
    update := some idUpdate
    view := some ()
    effects := []
    effectRunner := none
    subscriptions := none
    debug := false }

/-- C5 (counterexample): `init: 0` and `init: false` are present — all
three required fields are supplied — yet `app` throws the configuration
error instead of proceeding with `0` (resp. `false`) as the initial
State. -/
theorem c5_present_falsy_init_throws :
    app [] true c5ZeroCfg = .error .configurationError
    ∧ app [] true { c5ZeroCfg with init := .bool false } = .error .configurationError :=
  ⟨rfl, rfl⟩

/-- Unfolding of `app` when the config passes the truthiness check and the
mount root is found. -/
theorem app_valid (defaultEffects : List (String × Handler)) (config : Config)
    (hv : (jsTruthy config.init && config.update.isSome && config.view.isSome) = true) :
    app defaultEffects true config =
      .ok (⟨appInstance defaultEffects config, normalizeCleanup config.subscriptions⟩,
        (if config.debug then
          [Event.log (.logInitialized (appInstance defaultEffects config).currentState)]
         else [])
          ++ renderEvents (appInstance defaultEffects config)) := by
  simp [app, hv]

/-- C5 (amended): `app` throws the configuration error exactly when one of
`config.init`, `config.update`, `config.view` is absent **or falsy** (in
particular a present literal `init` of `0` or `false` throws); whenever
all three are truthy (and the mount root resolves), construction proceeds
and the initial State is `init()` if `init` is callable, otherwise the
literal value of `init` itself. -/
theorem c5_mount_validation (defaultEffects : List (String × Handler)) (found : Bool)
    (config : Config) :
    (app defaultEffects found config = .error .configurationError ↔
      (jsTruthy config.init && config.update.isSome && config.view.isSome) = false)
    ∧ ((jsTruthy config.init && config.update.isSome && config.view.isSome) = true →
      ∃ hd evs, app defaultEffects true config = .ok (hd, evs)
        ∧ hd.inst.currentState = initialState config.init
        ∧ ∀ ret, config.init = .func ret → hd.inst.currentState = ret) := by
  constructor
  · constructor
    · intro happ
      by_cases hv : (jsTruthy config.init && config.update.isSome && config.view.isSome) = true
      · exfalso
        by_cases hf : found = true
        · subst hf
          rw [app_valid defaultEffects config hv] at happ
          exact absurd happ (by simp)
        · rw [Bool.not_eq_true] at hf
          subst hf
          simp [app, hv] at happ
      · rw [Bool.not_eq_true] at hv
        exact hv
    · intro hv
      simp [app, hv]
  · intro hv
    refine ⟨⟨appInstance defaultEffects config, normalizeCleanup config.subscriptions⟩, _,
      app_valid defaultEffects config hv, rfl, ?_⟩
    intro ret hret
    show initialState config.init = ret
    simp [hret, initialState]

/-- Witness for C5 (amended): a config with callable `init` returning
`{count: 0}` mounts with that object as initial State; the `init: 0`
config satisfies the error characterization. -/
theorem c5_mount_validation_witness :
    (app [] true c5ZeroCfg = .error .configurationError ↔
      (jsTruthy c5ZeroCfg.init && c5ZeroCfg.update.isSome && c5ZeroCfg.view.isSome) = false)
    ∧ ∃ hd evs, app []
        true { c5ZeroCfg with init := .func (.obj [("count", .num 0)]) } = .ok (hd, evs)
      ∧ hd.inst.currentState
          = initialState ({ c5ZeroCfg with init := .func (.obj [("count", .num 0)]) }).init
      ∧ ∀ ret, ({ c5ZeroCfg with init := .func (.obj [("count", .num 0)]) }).init = .func ret →
          hd.inst.currentState = ret :=
  ⟨(c5_mount_validation [] true c5ZeroCfg).1,
   (c5_mount_validation [] true
     { c5ZeroCfg with init := .func (.obj [("count", .num 0)]) }).2 rfl⟩

/-!
## Claim C6 — dispatch on a destroyed handle

After `destroy`, `updateFn` is null, so a *valid* message is a silent
no-op.  But the `if (!msg || !msg.type)` check — and its `console.warn` —
runs **before** the `if (!updateFn) return;` short-circuit, so an invalid
message still produces the invalid-message warning on a destroyed handle.
-/

/-- C6 (counterexample): dispatching the invalid message `null` on a
destroyed instance is *not* silent: it still emits the invalid-message
warning on the logging channel (the validity check precedes the
destroyed-instance short-circuit). -/
theorem c6_invalid_message_warns_after_destroy :
    dispatch JSValue.null destroyedInstance
      = (destroyedInstance, [.log (.warnInvalidMessage JSValue.null)]) := rfl

/-- C6 (amended): destroying a handle (whose cleanups all return) leaves
the `destroyedInstance` closure state, and on it every dispatch of a
message with a truthy `type` is a silent no-op — no state change, no
render, no reducer invocation, and no log output; a message failing the
validity check still logs exactly the invalid-message warning while
changing nothing. -/
theorem c6_destroyed_dispatch_silent :
    (∀ (h : Handle), (runCleanups h.cleanupFns).2 = none →
      (destroy h).1 = .ok destroyedInstance)
    ∧ (∀ msg, (jsTruthy msg && jsTruthy (jsGetField msg "type")) = true →
      dispatch msg destroyedInstance = (destroyedInstance, []))
    ∧ (∀ msg, (jsTruthy msg && jsTruthy (jsGetField msg "type")) = false →
      dispatch msg destroyedInstance
        = (destroyedInstance, [.log (.warnInvalidMessage msg)])) := by
  refine ⟨?_, ?_, ?_⟩
  · intro h he
    rcases hrc : runCleanups h.cleanupFns with ⟨inv, exc⟩
    rw [hrc] at he
    simp at he
    subst he
    simp [destroy, hrc]
  · intro msg hm
    simp [dispatch, hm, destroyedInstance]
  · intro msg hm
    exact dispatch_reject destroyedInstance msg hm

/-- Witness for C6 (amended): a handle with two returning cleanups tears
down to `destroyedInstance`; on it `{type:"Go"}` is a silent no-op and
`{}` (no `type` field) warns. -/
theorem c6_destroyed_dispatch_silent_witness :
    (destroy ⟨c3Inst, [CleanupOutcome.ok, CleanupOutcome.ok]⟩).1 = .ok destroyedInstance
    ∧ dispatch (.obj [("type", .str "Go")]) destroyedInstance = (destroyedInstance, [])
    ∧ dispatch (.obj []) destroyedInstance
        = (destroyedInstance, [.log (.warnInvalidMessage (.obj []))]) :=
  ⟨c6_destroyed_dispatch_silent.1 ⟨c3Inst, [CleanupOutcome.ok, CleanupOutcome.ok]⟩ rfl,
   c6_destroyed_dispatch_silent.2.1 (.obj [("type", .str "Go")]) rfl,
   c6_destroyed_dispatch_silent.2.2 (.obj []) rfl⟩

/-!
## Claim C7 — completeness of cleanup invocation

`cleanupFns.forEach((fn) => void fn())` invokes the callbacks in order,
but `forEach` does not catch: a throwing callback aborts the loop (and the
rest of `destroy`), so the callbacks after it are never invoked —
completeness fails exactly when an earlier callback throws.
-/

theorem runCleanups_all_ok : ∀ (cs : List CleanupOutcome),
    (∀ c ∈ cs, c = CleanupOutcome.ok) → runCleanups cs = (cs, none)
  | [], _ => rfl
  | c :: rest, h => by
    have hc : c = CleanupOutcome.ok := h c (List.mem_cons_self c rest)
    subst hc
    have ih := runCleanups_all_ok rest (fun d hd => h d (List.mem_cons_of_mem _ hd))
    simp [runCleanups, ih]

/-- C7 (counterexample): with cleanup callbacks `[throws "boom", ok]`
collected from the subscriptions setup, `destroy` invokes only the first
one — the invoked list has length 1 out of 2, the second callback is never
invoked, and the exception escapes `destroy`. -/
theorem c7_throwing_cleanup_skips_rest :
    (destroy ⟨c3Inst, [CleanupOutcome.err (.str "boom"), CleanupOutcome.ok]⟩).2
      = [CleanupOutcome.err (.str "boom")]
    ∧ [CleanupOutcome.err (.str "boom"), CleanupOutcome.ok].length = 2
    ∧ (destroy ⟨c3Inst, [CleanupOutcome.err (.str "boom"), CleanupOutcome.ok]⟩).1
      = .error (.str "boom") :=
  ⟨rfl, rfl, rfl⟩

/-- C7 (amended): `destroy` invokes the cleanup callbacks in registration
order; when none of them throws, every one of them is invoked exactly once
(the invoked sequence is exactly the registered list) and tear-down
completes; when some callback throws, the callbacks before it and the
throwing one itself are invoked once each, the remaining ones are never
invoked, and the exception escapes `destroy`. -/
theorem c7_cleanup_completeness :
    (∀ (h : Handle), (∀ c ∈ h.cleanupFns, c = CleanupOutcome.ok) →
      destroy h = (.ok destroyedInstance, h.cleanupFns))
    ∧ (∀ (pre post : List CleanupOutcome) (e : JSValue),
      (∀ c ∈ pre, c = CleanupOutcome.ok) →
      runCleanups (pre ++ CleanupOutcome.err e :: post)
        = (pre ++ [CleanupOutcome.err e], some e)) := by
  constructor
  · intro h hok
    have hrc := runCleanups_all_ok h.cleanupFns hok
    simp [destroy, hrc]
  · intro pre post e hok
    induction pre with
    | nil => simp [runCleanups]
    | cons c rest ih =>
      have hc : c = CleanupOutcome.ok := hok c (List.mem_cons_self c rest)
      subst hc
      have := ih (fun d hd => hok d (List.mem_cons_of_mem _ hd))
      simp [runCleanups, this]

/-- Witness for C7 (amended): two returning cleanups are both invoked and
tear-down completes; with `[ok, throws "x", ok]` only the first two are
invoked. -/
theorem c7_cleanup_completeness_witness :
    destroy ⟨c3Inst, [CleanupOutcome.ok, CleanupOutcome.ok]⟩
      = (.ok destroyedInstance, [CleanupOutcome.ok, CleanupOutcome.ok])
    ∧ runCleanups ([CleanupOutcome.ok] ++ CleanupOutcome.err (.str "x") :: [CleanupOutcome.ok])
      = ([CleanupOutcome.ok] ++ [CleanupOutcome.err (.str "x")], some (.str "x")) :=
  ⟨c7_cleanup_completeness.1 ⟨c3Inst, [CleanupOutcome.ok, CleanupOutcome.ok]⟩
      (by intro c hc; simp at hc; simp [hc]),
   c7_cleanup_completeness.2 [CleanupOutcome.ok] [CleanupOutcome.ok] (.str "x")
      (by intro c hc; simp at hc; simp [hc])⟩

/-!
## Claim C8 — time travel over the debug history

`debugUpdate` pushes `{msg, state: newState}` — the post-dispatch State —
on every dispatch, and `timeTravel(index)` restores `debugHistory[index]
.state` (re-rendering) when the entry exists and warns otherwise.
-/

/-- `state.count`, as the counter scenario's reducer reads it. -/
def getCount (s : JSValue) : Int :=
  match jsGetField s "count" with
  | .num n => n
  | _ => 0

/-- The counter reducer: `Increment` maps `{count: n}` to `{count: n+1}`. -/
def c8Update : JSValue → JSValue → JSValue := fun state msg =>
  match jsGetField msg "type" with
  | .str t => if t == "Increment" then .obj [("count", .num (getCount state + 1))] else state
  | _ => state

/-- A debug-mode instance of the counter app, initial State `{count: 0}`. -/
def c8Inst0 : Instance :=
  { currentState := .obj [("count", .num 0)]
    updateFn := some c8Update
    viewPresent := true
    rootPresent := true
    effectHandlers := []
    runEffectFn := some (defaultEffectRunner true)
    isDebugMode := true
    debugHistory := [] }

/-- The `Increment` message. -/
def incMsg : JSValue := .obj [("type", .str "Increment")]

/-- The instance after three sequential `Increment` dispatches. -/
def c8Run3 : Instance :=
  (dispatch incMsg (dispatch incMsg (dispatch incMsg c8Inst0).1).1).1

/-- C8: `timeTravel(index)` replaces the current State with the State
recorded at that history index and re-renders; an out-of-range index warns
and changes nothing; and in the counter scenario three `Increment`
dispatches from `{count:0}` in debug mode leave a history of length 3
whose entry 0 restores `{count:1}` — not the initial `{count:0}` nor the
final `{count:3}`. -/
theorem c8_time_travel :
    (∀ (inst : Instance) (i : Nat) (entry : HistoryEntry),
      inst.debugHistory[i]? = some entry →
      timeTravel inst i
        = ({ inst with currentState := entry.state },
          renderEvents { inst with currentState := entry.state }
            ++ [.log (.logTimeTravel entry.state)]))
    ∧ (∀ (inst : Instance) (i : Nat),
      inst.debugHistory[i]? = none →
      timeTravel inst i = (inst, [.log (.warnNoHistoryEntry i)]))
    ∧ (c8Run3.isDebugMode = true
      ∧ c8Run3.debugHistory.length = 3
      ∧ (timeTravel c8Run3 0).1.currentState = .obj [("count", .num 1)]
      ∧ c8Run3.currentState = .obj [("count", .num 3)]
      ∧ c8Inst0.currentState = .obj [("count", .num 0)]) := by
  refine ⟨?_, ?_, rfl, rfl, rfl, rfl, rfl⟩
  · intro inst i entry he
    simp [timeTravel, he]
  · intro inst i he
    simp [timeTravel, he]

/-- Witness for C8: on the concrete post-scenario instance, `timeTravel 0`
finds the entry `⟨Increment, {count:1}⟩` and `timeTravel 5` warns. -/
theorem c8_time_travel_witness :
    timeTravel c8Run3 0
      = ({ c8Run3 with currentState := .obj [("count", .num 1)] },
        renderEvents { c8Run3 with currentState := .obj [("count", .num 1)] }
          ++ [.log (.logTimeTravel (.obj [("count", .num 1)]))])
    ∧ timeTravel c8Run3 5 = (c8Run3, [.log (.warnNoHistoryEntry 5)]) :=
  ⟨c8_time_travel.1 c8Run3 0 ⟨incMsg, .obj [("count", .num 1)]⟩ rfl,
   c8_time_travel.2.1 c8Run3 5 rfl⟩

end Spriggan
